import Mathlib

/-
  Verification development for the Delos Python SDK
  (src/sdk/python/src/delos).  Python source constructs are shallowly
  embedded as Lean definitions:

  * Python `str` is `String`, `int` is `Int`, `float` is `Rat`
    (all float arithmetic appearing in the claims is exact),
    `datetime | None` is `Option Int` (an abstract timestamp),
    `dict[str, str]` is an insertion-ordered `List (String × String)`.
  * A method that can raise is embedded as a function into `Except`;
    a method returning `T | None` is a function into `Option`.
  * The gRPC remote call itself is external to this code base, so a
    client method taking a remote response is parameterised by the
    remote outcome (`Except RpcError α` for a unary call, a `List` of
    responses for a server-streaming call).
-/

namespace Delos

/-! ## config.py -/

/-- Source `ServiceEndpoint` from config.py: host, port, TLS flag. -/
structure ServiceEndpoint where
  host : String := "localhost"
  port : Int := 9000
  use_tls : Bool := false
deriving Repr, DecidableEq

/-- Source `ServiceEndpoint.address`: the `"host:port"` string. -/
def ServiceEndpoint.address (e : ServiceEndpoint) : String :=
  e.host ++ ":" ++ toString e.port

/-! ## models/deploy.py -/

/-- Source `DeploymentStatus` enum from models/deploy.py (9 values). -/
inductive DeploymentStatus
  | UNSPECIFIED
  | PENDING_APPROVAL
  | PENDING_GATES
  | GATES_FAILED
  | IN_PROGRESS
  | COMPLETED
  | ROLLED_BACK
  | CANCELLED
  | FAILED
deriving Repr, DecidableEq, BEq

/-- Source `DeploymentType` enum from models/deploy.py (5 values). -/
inductive DeploymentType
  | UNSPECIFIED
  | IMMEDIATE
  | GRADUAL
  | CANARY
  | BLUE_GREEN
deriving Repr, DecidableEq, BEq

/-- Source `DeploymentStrategy` from models/deploy.py. -/
structure DeploymentStrategy where
  type : DeploymentType := .IMMEDIATE
  initial_percentage : Int := 0
  increment : Int := 0
  interval_seconds : Int := 0
  auto_rollback : Bool := false
  rollback_threshold : Rat := 0
deriving Repr, DecidableEq

/-- Source `RolloutProgress` from models/deploy.py. -/
structure RolloutProgress where
  current_percentage : Int := 0
  target_percentage : Int := 100
  last_increment_at : Option Int := none
  next_increment_at : Option Int := none
deriving Repr, DecidableEq

/-- Source `ConditionResult` from models/deploy.py. -/
structure ConditionResult where
  type : String
  expected : Rat
  actual : Rat
  passed : Bool
deriving Repr, DecidableEq

/-- Source `QualityGateResult` from models/deploy.py. -/
structure QualityGateResult where
  gate_id : String
  gate_name : String
  passed : Bool
  message : String := ""
  condition_results : List ConditionResult := []
deriving Repr, DecidableEq

/-- Source `Deployment` from models/deploy.py. -/
structure Deployment where
  id : String
  prompt_id : String
  from_version : Int := 0
  to_version : Int := 0
  environment : String := ""
  strategy : Option DeploymentStrategy := none
  status : DeploymentStatus := .UNSPECIFIED
  status_message : String := ""
  gate_results : List QualityGateResult := []
  gates_passed : Bool := false
  rollout : Option RolloutProgress := none
  created_at : Option Int := none
  started_at : Option Int := none
  completed_at : Option Int := none
  created_by : String := ""
  approved_by : String := ""
  metadata : List (String × String) := []
deriving Repr, DecidableEq

/-- Source `Deployment.is_active`: status is one of pending_approval,
pending_gates, in_progress (Python `in` on a tuple). -/
def Deployment.is_active (d : Deployment) : Bool :=
  [DeploymentStatus.PENDING_APPROVAL,
   DeploymentStatus.PENDING_GATES,
   DeploymentStatus.IN_PROGRESS].contains d.status

/-- Source `Deployment.is_complete`: status is one of completed, rolled_back,
cancelled, failed, gates_failed (Python `in` on a tuple). -/
def Deployment.is_complete (d : Deployment) : Bool :=
  [DeploymentStatus.COMPLETED,
   DeploymentStatus.ROLLED_BACK,
   DeploymentStatus.CANCELLED,
   DeploymentStatus.FAILED,
   DeploymentStatus.GATES_FAILED].contains d.status

/-! ## services/deploy.py — wire enum constants and enum mappers -/

namespace deploy_pb2

/-- Modelled from the spec: the generated protobuf module `deploy.v1.deploy_pb2`
is not under src; §4.2 requires a full mapping table per enum, and protobuf
convention makes UNSPECIFIED 0 with the remaining constants distinct. -/
def DEPLOYMENT_TYPE_UNSPECIFIED : Nat := 0

/-- Modelled from the spec: wire constant of `deploy_pb2` (generated code absent). -/
def DEPLOYMENT_TYPE_IMMEDIATE : Nat := 1

/-- Modelled from the spec: wire constant of `deploy_pb2` (generated code absent). -/
def DEPLOYMENT_TYPE_GRADUAL : Nat := 2

/-- Modelled from the spec: wire constant of `deploy_pb2` (generated code absent). -/
def DEPLOYMENT_TYPE_CANARY : Nat := 3

/-- Modelled from the spec: wire constant of `deploy_pb2` (generated code absent). -/
def DEPLOYMENT_TYPE_BLUE_GREEN : Nat := 4

/-- Modelled from the spec: wire constant of `deploy_pb2` (generated code absent). -/
def DEPLOYMENT_STATUS_UNSPECIFIED : Nat := 0

/-- Modelled from the spec: wire constant of `deploy_pb2` (generated code absent). -/
def DEPLOYMENT_STATUS_PENDING_APPROVAL : Nat := 1

/-- Modelled from the spec: wire constant of `deploy_pb2` (generated code absent). -/
def DEPLOYMENT_STATUS_PENDING_GATES : Nat := 2

/-- Modelled from the spec: wire constant of `deploy_pb2` (generated code absent). -/
def DEPLOYMENT_STATUS_GATES_FAILED : Nat := 3

/-- Modelled from the spec: wire constant of `deploy_pb2` (generated code absent). -/
def DEPLOYMENT_STATUS_IN_PROGRESS : Nat := 4

/-- Modelled from the spec: wire constant of `deploy_pb2` (generated code absent). -/
def DEPLOYMENT_STATUS_COMPLETED : Nat := 5

/-- Modelled from the spec: wire constant of `deploy_pb2` (generated code absent). -/
def DEPLOYMENT_STATUS_ROLLED_BACK : Nat := 6

/-- Modelled from the spec: wire constant of `deploy_pb2` (generated code absent). -/
def DEPLOYMENT_STATUS_CANCELLED : Nat := 7

/-- Modelled from the spec: wire constant of `deploy_pb2` (generated code absent). -/
def DEPLOYMENT_STATUS_FAILED : Nat := 8

end deploy_pb2

namespace DeployClient

/-- Source `DeployClient._type_to_pb`: the dict literal covers every
`DeploymentType` value, so the `.get` default is unreachable; the
total match below is that dict. -/
def type_to_pb : DeploymentType → Nat
  | .UNSPECIFIED => deploy_pb2.DEPLOYMENT_TYPE_UNSPECIFIED
  | .IMMEDIATE => deploy_pb2.DEPLOYMENT_TYPE_IMMEDIATE
  | .GRADUAL => deploy_pb2.DEPLOYMENT_TYPE_GRADUAL
  | .CANARY => deploy_pb2.DEPLOYMENT_TYPE_CANARY
  | .BLUE_GREEN => deploy_pb2.DEPLOYMENT_TYPE_BLUE_GREEN

/-- Source `DeployClient._type_from_pb`: dict lookup with default
`DeploymentType.UNSPECIFIED` for any unmapped wire value. -/
def type_from_pb (t : Nat) : DeploymentType :=
  if t = deploy_pb2.DEPLOYMENT_TYPE_UNSPECIFIED then .UNSPECIFIED
  else if t = deploy_pb2.DEPLOYMENT_TYPE_IMMEDIATE then .IMMEDIATE
  else if t = deploy_pb2.DEPLOYMENT_TYPE_GRADUAL then .GRADUAL
  else if t = deploy_pb2.DEPLOYMENT_TYPE_CANARY then .CANARY
  else if t = deploy_pb2.DEPLOYMENT_TYPE_BLUE_GREEN then .BLUE_GREEN
  else .UNSPECIFIED

/-- Source `DeployClient._status_to_pb`: the dict literal covers every
`DeploymentStatus` value, so the `.get` default is unreachable. -/
def status_to_pb : DeploymentStatus → Nat
  | .UNSPECIFIED => deploy_pb2.DEPLOYMENT_STATUS_UNSPECIFIED
  | .PENDING_APPROVAL => deploy_pb2.DEPLOYMENT_STATUS_PENDING_APPROVAL
  | .PENDING_GATES => deploy_pb2.DEPLOYMENT_STATUS_PENDING_GATES
  | .GATES_FAILED => deploy_pb2.DEPLOYMENT_STATUS_GATES_FAILED
  | .IN_PROGRESS => deploy_pb2.DEPLOYMENT_STATUS_IN_PROGRESS
  | .COMPLETED => deploy_pb2.DEPLOYMENT_STATUS_COMPLETED
  | .ROLLED_BACK => deploy_pb2.DEPLOYMENT_STATUS_ROLLED_BACK
  | .CANCELLED => deploy_pb2.DEPLOYMENT_STATUS_CANCELLED
  | .FAILED => deploy_pb2.DEPLOYMENT_STATUS_FAILED

/-- Source `DeployClient._status_from_pb`: dict lookup with default
`DeploymentStatus.UNSPECIFIED` for any unmapped wire value. -/
def status_from_pb (s : Nat) : DeploymentStatus :=
  if s = deploy_pb2.DEPLOYMENT_STATUS_UNSPECIFIED then .UNSPECIFIED
  else if s = deploy_pb2.DEPLOYMENT_STATUS_PENDING_APPROVAL then .PENDING_APPROVAL
  else if s = deploy_pb2.DEPLOYMENT_STATUS_PENDING_GATES then .PENDING_GATES
  else if s = deploy_pb2.DEPLOYMENT_STATUS_GATES_FAILED then .GATES_FAILED
  else if s = deploy_pb2.DEPLOYMENT_STATUS_IN_PROGRESS then .IN_PROGRESS
  else if s = deploy_pb2.DEPLOYMENT_STATUS_COMPLETED then .COMPLETED
  else if s = deploy_pb2.DEPLOYMENT_STATUS_ROLLED_BACK then .ROLLED_BACK
  else if s = deploy_pb2.DEPLOYMENT_STATUS_CANCELLED then .CANCELLED
  else if s = deploy_pb2.DEPLOYMENT_STATUS_FAILED then .FAILED
  else .UNSPECIFIED

/-- The set of wire values the type mapping table covers. -/
def typeTableValues : List Nat :=
  [deploy_pb2.DEPLOYMENT_TYPE_UNSPECIFIED,
   deploy_pb2.DEPLOYMENT_TYPE_IMMEDIATE,
   deploy_pb2.DEPLOYMENT_TYPE_GRADUAL,
   deploy_pb2.DEPLOYMENT_TYPE_CANARY,
   deploy_pb2.DEPLOYMENT_TYPE_BLUE_GREEN]

/-- The set of wire values the status mapping table covers. -/
def statusTableValues : List Nat :=
  [deploy_pb2.DEPLOYMENT_STATUS_UNSPECIFIED,
   deploy_pb2.DEPLOYMENT_STATUS_PENDING_APPROVAL,
   deploy_pb2.DEPLOYMENT_STATUS_PENDING_GATES,
   deploy_pb2.DEPLOYMENT_STATUS_GATES_FAILED,
   deploy_pb2.DEPLOYMENT_STATUS_IN_PROGRESS,
   deploy_pb2.DEPLOYMENT_STATUS_COMPLETED,
   deploy_pb2.DEPLOYMENT_STATUS_ROLLED_BACK,
   deploy_pb2.DEPLOYMENT_STATUS_CANCELLED,
   deploy_pb2.DEPLOYMENT_STATUS_FAILED]

end DeployClient

/-! ## models/eval.py -/

/-- Source `EvalRunStatus` enum from models/eval.py. -/
inductive EvalRunStatus
  | UNSPECIFIED
  | PENDING
  | RUNNING
  | COMPLETED
  | FAILED
  | CANCELLED
deriving Repr, DecidableEq, BEq

/-- Source `EvaluatorConfig` from models/eval.py. -/
structure EvaluatorConfig where
  type : String
  name : String := ""
  params : List (String × String) := []
  weight : Rat := 1
deriving Repr, DecidableEq

/-- Source `EvalConfig` from models/eval.py. -/
structure EvalConfig where
  evaluators : List EvaluatorConfig := []
  provider : String := ""
  model : String := ""
  concurrency : Int := 1
  sample_size : Int := 0
  shuffle : Bool := false
deriving Repr, DecidableEq

/-- Source `EvalSummary` from models/eval.py. -/
structure EvalSummary where
  overall_score : Rat := 0
  scores_by_evaluator : List (String × Rat) := []
  passed_count : Int := 0
  failed_count : Int := 0
  pass_rate : Rat := 0
  total_cost_usd : Rat := 0
  total_tokens : Int := 0
  avg_latency_ms : Rat := 0
deriving Repr, DecidableEq

/-- Source `EvalRun` from models/eval.py. -/
structure EvalRun where
  id : String
  name : String
  description : String := ""
  prompt_id : String := ""
  prompt_version : Int := 0
  dataset_id : String := ""
  config : Option EvalConfig := none
  status : EvalRunStatus := .UNSPECIFIED
  error_message : String := ""
  total_examples : Int := 0
  completed_examples : Int := 0
  summary : Option EvalSummary := none
  created_at : Option Int := none
  started_at : Option Int := none
  completed_at : Option Int := none
  created_by : String := ""
  metadata : List (String × String) := []
deriving Repr, DecidableEq

/-- Source `EvalRun.progress`: `0.0` when `total_examples == 0`, else
`(completed_examples / total_examples) * 100` (Python float division,
exact here over the rationals). -/
def EvalRun.progress (r : EvalRun) : Rat :=
  if r.total_examples = 0 then 0
  else ((r.completed_examples : Rat) / (r.total_examples : Rat)) * 100

/-! ## models/prompt.py -/

/-- Source `PromptVariable` from models/prompt.py. -/
structure PromptVariable where
  name : String
  description : String := ""
  default_value : String := ""
  required : Bool := true
deriving Repr, DecidableEq

/-- Source `PromptMessage` from models/prompt.py. -/
structure PromptMessage where
  role : String
  content : String
deriving Repr, DecidableEq

/-- Source `PromptVersion` from models/prompt.py. -/
structure PromptVersion where
  version : Int
  template : String := ""
  system_prompt : String := ""
  messages : List PromptMessage := []
  «variables» : List PromptVariable := []
  model : String := ""
  temperature : Rat := 7/10
  max_tokens : Int := 1024
  created_at : Option Int := none
  created_by : String := ""
  commit_message : String := ""
deriving Repr, DecidableEq

/-- Source `Prompt` from models/prompt.py. -/
structure Prompt where
  id : String
  name : String
  slug : String := ""
  description : String := ""
  current_version : Int := 1
  versions : List PromptVersion := []
  tags : List String := []
  metadata : List (String × String) := []
  created_at : Option Int := none
  updated_at : Option Int := none
  created_by : String := ""
deriving Repr, DecidableEq

/-- Does `s` start with `pat`?  (Explicit character-list prefix test
used by the embedding of Python `str.replace`.) -/
def startsWith : List Char → List Char → Bool
  | _, [] => true
  | [], _ :: _ => false
  | c :: s, p :: ps => c = p && startsWith s ps

/-- Embedding of Python `str.replace` on character lists: replace every
non-overlapping occurrence of `pat` by `rep`, scanning left to right.
Every caller in models/prompt.py passes the nonempty pattern
`"\x7b\x7b" ++ name ++ "\x7d\x7d"`, so Python's empty-pattern corner
case never arises. -/
def replaceAll (pat rep : List Char) : List Char → List Char
  | [] => []
  | c :: rest =>
    if pat ≠ [] ∧ startsWith (c :: rest) pat = true then
      -- skip the matched occurrence: for nonempty `pat`,
      -- `(c :: rest).drop pat.length = rest.drop (pat.length - 1)`
      rep ++ replaceAll pat rep (rest.drop (pat.length - 1))
    else
      c :: replaceAll pat rep rest
termination_by s => s.length
decreasing_by
  · simp only [List.length_drop, List.length_cons]
    omega
  · simp

/-- Python `template.replace(pattern, value)` on `String`. -/
def strReplace (s pat rep : String) : String :=
  ⟨replaceAll pat.data rep.data s.data⟩

/-- Source `Prompt.get_version`: Python computes
`target = version or self.current_version`, so a `None` *or zero*
requested version falls back to `current_version` (truthiness), then
returns the first version whose number equals `target`. -/
def Prompt.get_version (p : Prompt) (version : Option Int) :
    Option PromptVersion :=
  let target : Int :=
    match version with
    | none => p.current_version
    | some v => if v = 0 then p.current_version else v
  p.versions.find? (fun pv => pv.version = target)

/-- Source `Prompt.latest`: the version numbered `current_version`. -/
def Prompt.latest (p : Prompt) : Option PromptVersion :=
  p.get_version (some p.current_version)

/-- Source `Prompt.render`: select a version (raising `ValueError`, embedded
as `Except.error`, when absent), then fold Python's
`template.replace("\x7b\x7b" + name + "\x7d\x7d", value)` over the
variables in insertion order.  `variables=None` and an empty dict both
skip the loop, embedded as the empty list. -/
def Prompt.render (p : Prompt) («variables» : List (String × String))
    (version : Option Int) : Except String String :=
  match p.get_version version with
  | none => .error "version not found"
  | some v =>
    .ok («variables».foldl
      (fun acc nv => strReplace acc ("\x7b\x7b" ++ nv.1 ++ "\x7d\x7d") nv.2)
      v.template)

/-! ## services — remote call outcomes -/

/-- The classes of remote failure a gRPC call can surface (the spec's
taxonomy: malformed id, permission, validation, internal, timeout,
plus not-found).  Every one reaches the client as a raised exception. -/
inductive RpcError
  | notFound
  | invalidArgument
  | permissionDenied
  | failedPrecondition
  | internalError
  | deadlineExceeded
deriving Repr, DecidableEq

/-! ## services/prompt.py and services/deploy.py — `get` -/

namespace PromptClient

/-- Source `PromptClient.get`: issue `GetPrompt` and convert; the body is
`try: return model except Exception: return None`, so the bare
`except Exception` catches *every* raised failure class.  The result
type `Except RpcError (Option Prompt)` keeps the possibility of a
propagated failure expressible; the code never produces one. -/
def get (remote : Except RpcError Prompt) : Except RpcError (Option Prompt) :=
  match remote with
  | .ok p => .ok (some p)
  | .error _ => .ok none

end PromptClient

namespace DeployClient

/-- Source `DeployClient.get`: same `try ... except Exception: return None`
shape as `PromptClient.get`. -/
def get (remote : Except RpcError Deployment) :
    Except RpcError (Option Deployment) :=
  match remote with
  | .ok d => .ok (some d)
  | .error _ => .ok none

/-- What §7 of the spec prescribes for a `Get`-style lookup: recover
only the not-found class into an absent result and propagate every
other failure class unchanged.  (Stated from the spec's words, for
comparison with the code's `get` above.) -/
def get_per_spec (remote : Except RpcError Deployment) :
    Except RpcError (Option Deployment) :=
  match remote with
  | .ok d => .ok (some d)
  | .error .notFound => .ok none
  | .error e => .error e

end DeployClient

/-! ## services/runtime.py — `complete_stream` -/

/-- One `CompleteStreamResponse` message of the runtime stream. -/
structure StreamResponse where
  content : String
deriving Repr, DecidableEq

namespace RuntimeClient

/-- Source `RuntimeClient.complete_stream`, given the finite list of
responses the remote stream produced: `for response in stream: if
response.content: yield response.content` — Python string truthiness
is the non-empty test. -/
def complete_stream : List StreamResponse → List String
  | [] => []
  | r :: rest =>
    if r.content ≠ "" then r.content :: complete_stream rest
    else complete_stream rest

end RuntimeClient

/-! ## services/base.py — channel lifecycle -/

/-- The mutable state of a `BaseClient`: endpoint, timeout and the
lazily-created channel (`self._channel`), with channels identified by
the order of their creation. -/
structure BaseClient where
  endpoint : ServiceEndpoint
  timeout : Rat := 30
  channel_slot : Option Nat := none
deriving Repr, DecidableEq

namespace BaseClient

/-- Source `BaseClient.close`: `if self._channel is not None:
self._channel.close(); self._channel = None`.  Returns the new state
and whether an underlying `channel.close()` effect happened. -/
def close (c : BaseClient) : BaseClient × Bool :=
  match c.channel_slot with
  | some _ => ({ c with channel_slot := none }, true)
  | none => (c, false)

end BaseClient

/-! ## services/base.py — the `channel` property under interleaving
(for the initialization-race claim).  The property body is an
unsynchronized check-then-create:

    if self._channel is None:
        self._channel = grpc.secure_channel(...)  (or insecure_channel)
    return self._channel

Two callers are modelled as two threads, each executing an atomic
*check* step (read `self._channel`) and, when it read `None`, an
atomic *create-and-assign* step (construct a fresh channel handle and
store it).  Even at this coarse granularity nothing orders the two
check steps before the two create steps. -/

/-- The shared state of the race model: the `self._channel` slot, a
fresh-handle counter, and how many channel handles were ever created. -/
structure ChanShared where
  channel : Option Nat := none
  nextHandle : Nat := 0
  createdCount : Nat := 0
deriving Repr, DecidableEq

/-- A thread's position inside the `channel` property body. -/
inductive ChanPC
  | check
  | createAssign
  | done : Nat → ChanPC
deriving Repr, DecidableEq

/-- One atomic step of a thread running the `channel` property. -/
def chanStep (s : ChanShared) (pc : ChanPC) : ChanShared × ChanPC :=
  match pc with
  | .check =>
    match s.channel with
    | some c => (s, .done c)
    | none => (s, .createAssign)
  | .createAssign =>
    -- `self._channel = grpc.insecure_channel(...)`: a fresh handle is
    -- constructed (a real resource) and stored, overwriting the slot.
    ({ channel := some s.nextHandle,
       nextHandle := s.nextHandle + 1,
       createdCount := s.createdCount + 1 }, .done s.nextHandle)
  | .done c => (s, .done c)

/-- Two threads racing on one client: shared state plus each thread's
program counter. -/
structure ChanSys where
  shared : ChanShared := {}
  t1 : ChanPC := .check
  t2 : ChanPC := .check
deriving Repr, DecidableEq

/-- Run a schedule: `true` steps thread 1, `false` steps thread 2. -/
def chanRun (sys : ChanSys) : List Bool → ChanSys
  | [] => sys
  | b :: rest =>
    let sys' :=
      if b then
        let (s, pc) := chanStep sys.shared sys.t1
        { sys with shared := s, t1 := pc }
      else
        let (s, pc) := chanStep sys.shared sys.t2
        { sys with shared := s, t2 := pc }
    chanRun sys' rest

/-! ## client.py — facade close and health check -/

/-- The mutable state of `DelosClient`: six lazily-constructed
sub-client slots. -/
structure DelosClientState where
  observe : Option BaseClient := none
  runtime : Option BaseClient := none
  prompts : Option BaseClient := none
  datasets : Option BaseClient := none
  eval : Option BaseClient := none
  deploy : Option BaseClient := none
deriving Repr, DecidableEq

namespace DelosClient

/-- Source `DelosClient.close`: for each slot, if constructed, close it and
reset the slot to `None`.  Returns the new state and the number of
sub-client `close()` calls performed. -/
def close (c : DelosClientState) : DelosClientState × Nat :=
  let n :=
    (if c.observe.isSome then 1 else 0) +
    (if c.runtime.isSome then 1 else 0) +
    (if c.prompts.isSome then 1 else 0) +
    (if c.datasets.isSome then 1 else 0) +
    (if c.eval.isSome then 1 else 0) +
    (if c.deploy.isSome then 1 else 0)
  ({ observe := none, runtime := none, prompts := none,
     datasets := none, eval := none, deploy := none }, n)

/-- The outcome of one connectivity probe in `health_check`:
the ready-future resolved in time, it timed out
(`grpc.FutureTimeoutError`), or some other exception was raised
anywhere in the probe (channel construction, the wait, or close). -/
inductive ProbeResult
  | ready
  | timedOut
  | raised
deriving Repr, DecidableEq

/-- How one probe outcome lands in the result map: only a ready future
yields `True`; a timeout writes `False`; any other exception is caught
by the enclosing `except Exception` and writes `False`. -/
def probeBool : ProbeResult → Bool
  | .ready => true
  | .timedOut => false
  | .raised => false

/-- The fixed service list `health_check` iterates, in source order. -/
def serviceNames : List String :=
  ["observe", "runtime", "prompt", "datasets", "eval", "deploy"]

/-- Source `DelosClient.health_check`, parameterised by each service's probe
outcome: builds the `results` map by probing every configured service;
every non-ready outcome is absorbed into `False`.  Total by
construction — no probe outcome escapes as a failure. -/
def health_check (probe : String → ProbeResult) : List (String × Bool) :=
  serviceNames.map (fun name => (name, probeBool (probe name)))

end DelosClient

/-! ## Concrete instances used by witnesses and counterexamples -/

/-- A prompt whose single version 1 has the spec's example template. -/
def examplePrompt : Prompt :=
  { id := "p3", name := "greeter",
    versions := [{ version := 1, template := "Hello \x7b\x7bname\x7d\x7d!" }] }

/-- A prompt version literally numbered 0. -/
def zeroVersion : PromptVersion :=
  { version := 0, template := "zero" }

/-- A prompt whose `current_version` is 0 and which owns a version
numbered 0. -/
def zeroPrompt : Prompt :=
  { id := "p0", name := "zero", current_version := 0,
    versions := [zeroVersion] }

/-- A deployment left at the default `UNSPECIFIED` status. -/
def unspecifiedDeployment : Deployment :=
  { id := "d-0", prompt_id := "p-0" }

/-- An eval run with `total_examples = 0` but nonzero
`completed_examples`. -/
def runZeroTotal : EvalRun :=
  { id := "run-0", name := "r0", total_examples := 0,
    completed_examples := 7 }

/-- An eval run with 4 total examples, 1 completed. -/
def runFourTotal : EvalRun :=
  { id := "run-1", name := "r1", total_examples := 4,
    completed_examples := 1 }

/-! ## Theorems -/

/-- C1 (counterexample): a permission-denied failure on
`DeployClient.get` is absorbed into an absent result instead of
propagating as the spec's lookup contract (`get_per_spec`) requires;
likewise a timeout on `PromptClient.get`.  The claim that only the
not-found class is recovered locally is therefore false. -/
theorem C1_counterexample :
    DeployClient.get (.error RpcError.permissionDenied) = .ok none ∧
    DeployClient.get_per_spec (.error RpcError.permissionDenied) =
      .error RpcError.permissionDenied ∧
    PromptClient.get (.error RpcError.deadlineExceeded) = .ok none :=
  ⟨rfl, rfl, rfl⟩

/-- C1 (amended): `get` returns an absent result for a not-found
failure as claimed, but its bare `except Exception` absorbs *every*
remote failure class into `None`; no failure class propagates from
`get`. -/
theorem C1_get_absorbs_every_failure :
    (∀ p, PromptClient.get (.ok p) = .ok (some p)) ∧
    PromptClient.get (.error RpcError.notFound) = .ok none ∧
    (∀ e, PromptClient.get (.error e) = .ok none) ∧
    (∀ d, DeployClient.get (.ok d) = .ok (some d)) ∧
    DeployClient.get (.error RpcError.notFound) = .ok none ∧
    (∀ e, DeployClient.get (.error e) = .ok none) :=
  ⟨fun _ => rfl, rfl, fun _ => rfl, fun _ => rfl, rfl, fun _ => rfl⟩

/-- C2: for both deploy enum mappers, decoding the encoding of any
domain value returns that value, and decoding any wire value outside
the mapping table yields the UNSPECIFIED sentinel. -/
theorem C2_enum_mappers_roundtrip_and_lenient :
    (∀ v : DeploymentType,
      DeployClient.type_from_pb (DeployClient.type_to_pb v) = v) ∧
    (∀ v : DeploymentStatus,
      DeployClient.status_from_pb (DeployClient.status_to_pb v) = v) ∧
    (∀ n : Nat, n ∉ DeployClient.typeTableValues →
      DeployClient.type_from_pb n = DeploymentType.UNSPECIFIED) ∧
    (∀ n : Nat, n ∉ DeployClient.statusTableValues →
      DeployClient.status_from_pb n = DeploymentStatus.UNSPECIFIED) := by
  refine ⟨?_, ?_, ?_, ?_⟩
  · intro v; cases v <;> rfl
  · intro v; cases v <;> rfl
  · intro n hn
    simp [DeployClient.typeTableValues,
      deploy_pb2.DEPLOYMENT_TYPE_UNSPECIFIED,
      deploy_pb2.DEPLOYMENT_TYPE_IMMEDIATE,
      deploy_pb2.DEPLOYMENT_TYPE_GRADUAL,
      deploy_pb2.DEPLOYMENT_TYPE_CANARY,
      deploy_pb2.DEPLOYMENT_TYPE_BLUE_GREEN] at hn
    obtain ⟨h0, h1, h2, h3, h4⟩ := hn
    simp [DeployClient.type_from_pb,
      deploy_pb2.DEPLOYMENT_TYPE_UNSPECIFIED,
      deploy_pb2.DEPLOYMENT_TYPE_IMMEDIATE,
      deploy_pb2.DEPLOYMENT_TYPE_GRADUAL,
      deploy_pb2.DEPLOYMENT_TYPE_CANARY,
      deploy_pb2.DEPLOYMENT_TYPE_BLUE_GREEN, h0, h1, h2, h3, h4]
  · intro n hn
    simp [DeployClient.statusTableValues,
      deploy_pb2.DEPLOYMENT_STATUS_UNSPECIFIED,
      deploy_pb2.DEPLOYMENT_STATUS_PENDING_APPROVAL,
      deploy_pb2.DEPLOYMENT_STATUS_PENDING_GATES,
      deploy_pb2.DEPLOYMENT_STATUS_GATES_FAILED,
      deploy_pb2.DEPLOYMENT_STATUS_IN_PROGRESS,
      deploy_pb2.DEPLOYMENT_STATUS_COMPLETED,
      deploy_pb2.DEPLOYMENT_STATUS_ROLLED_BACK,
      deploy_pb2.DEPLOYMENT_STATUS_CANCELLED,
      deploy_pb2.DEPLOYMENT_STATUS_FAILED] at hn
    obtain ⟨h0, h1, h2, h3, h4, h5, h6, h7, h8⟩ := hn
    simp [DeployClient.status_from_pb,
      deploy_pb2.DEPLOYMENT_STATUS_UNSPECIFIED,
      deploy_pb2.DEPLOYMENT_STATUS_PENDING_APPROVAL,
      deploy_pb2.DEPLOYMENT_STATUS_PENDING_GATES,
      deploy_pb2.DEPLOYMENT_STATUS_GATES_FAILED,
      deploy_pb2.DEPLOYMENT_STATUS_IN_PROGRESS,
      deploy_pb2.DEPLOYMENT_STATUS_COMPLETED,
      deploy_pb2.DEPLOYMENT_STATUS_ROLLED_BACK,
      deploy_pb2.DEPLOYMENT_STATUS_CANCELLED,
      deploy_pb2.DEPLOYMENT_STATUS_FAILED,
      h0, h1, h2, h3, h4, h5, h6, h7, h8]

/-- C2 (witness): round trip at a concrete value; decode of the
unmapped wire values 99 and 42 yields UNSPECIFIED. -/
theorem C2_enum_mappers_roundtrip_and_lenient_witness :
    DeployClient.type_from_pb (DeployClient.type_to_pb .CANARY) =
      DeploymentType.CANARY ∧
    (99 ∉ DeployClient.typeTableValues ∧
      DeployClient.type_from_pb 99 = DeploymentType.UNSPECIFIED) ∧
    (42 ∉ DeployClient.statusTableValues ∧
      DeployClient.status_from_pb 42 = DeploymentStatus.UNSPECIFIED) :=
  ⟨C2_enum_mappers_roundtrip_and_lenient.1 .CANARY,
   ⟨by decide, C2_enum_mappers_roundtrip_and_lenient.2.2.1 99 (by decide)⟩,
   ⟨by decide, C2_enum_mappers_roundtrip_and_lenient.2.2.2 42 (by decide)⟩⟩

/-- C3: when the selected version exists, `render` substitutes each
supplied double-brace placeholder with its value and leaves
unsupplied placeholders verbatim: with no variables supplied the
template is returned untouched; the spec's example template with
`name := World` renders to `Hello World!`; supplying only an unrelated
variable leaves the placeholder text verbatim. -/
theorem C3_render_substitution :
    (∀ (p : Prompt) (ver : Option Int) (v : PromptVersion),
        p.get_version ver = some v → p.render [] ver = .ok v.template) ∧
    examplePrompt.render [("name", "World")] none = .ok "Hello World!" ∧
    examplePrompt.render [("other", "X")] none =
      .ok "Hello \x7b\x7bname\x7d\x7d!" := by
  refine ⟨?_, ?_, ?_⟩
  · intro p ver v h
    simp [Prompt.render, h]
  · simp [Prompt.render, Prompt.get_version, examplePrompt, strReplace,
      replaceAll, startsWith]
  · simp [Prompt.render, Prompt.get_version, examplePrompt, strReplace,
      replaceAll, startsWith]

/-- C3 (witness): the no-variables clause applied to the concrete
example prompt, whose version 1 resolves by evaluation. -/
theorem C3_render_substitution_witness :
    examplePrompt.render [] none = .ok "Hello \x7b\x7bname\x7d\x7d!" :=
  C3_render_substitution.1 examplePrompt none
    { version := 1, template := "Hello \x7b\x7bname\x7d\x7d!" } rfl

/-- C4: `EvalRun.progress` is 0 when `total_examples` is 0, regardless
of `completed_examples`, and otherwise equals
`(completed_examples / total_examples) * 100`. -/
theorem C4_progress :
    ∀ r : EvalRun,
      (r.total_examples = 0 → r.progress = 0) ∧
      (r.total_examples ≠ 0 →
        r.progress =
          ((r.completed_examples : Rat) / (r.total_examples : Rat)) * 100) := by
  intro r
  constructor
  · intro h
    simp [EvalRun.progress, h]
  · intro h
    simp [EvalRun.progress, h]

/-- C4 (witness): total 0 with 7 completed gives 0; total 4 with 1
completed gives 25. -/
theorem C4_progress_witness :
    runZeroTotal.progress = 0 ∧ runFourTotal.progress = 25 := by
  refine ⟨(C4_progress runZeroTotal).1 rfl, ?_⟩
  have h := (C4_progress runFourTotal).2 (by decide)
  rw [h]
  norm_num [runFourTotal]

/-- C5: `is_active` holds exactly for pending_approval, pending_gates,
in_progress; `is_complete` exactly for completed, rolled_back,
cancelled, failed, gates_failed; never both; and at UNSPECIFIED both
are false. -/
theorem C5_active_complete_partition :
    ∀ d : Deployment,
      (d.is_active = true ↔
        (d.status = .PENDING_APPROVAL ∨ d.status = .PENDING_GATES ∨
          d.status = .IN_PROGRESS)) ∧
      (d.is_complete = true ↔
        (d.status = .COMPLETED ∨ d.status = .ROLLED_BACK ∨
          d.status = .CANCELLED ∨ d.status = .FAILED ∨
          d.status = .GATES_FAILED)) ∧
      ¬(d.is_active = true ∧ d.is_complete = true) ∧
      (d.status = .UNSPECIFIED →
        d.is_active = false ∧ d.is_complete = false) := by
  intro d
  cases hd : d.status <;>
    simp only [Deployment.is_active, Deployment.is_complete, hd] <;>
    decide

/-- C5 (witness): a deployment left at the default UNSPECIFIED status
is neither active nor complete. -/
theorem C5_active_complete_partition_witness :
    unspecifiedDeployment.is_active = false ∧
    unspecifiedDeployment.is_complete = false :=
  (C5_active_complete_partition unspecifiedDeployment).2.2.2 rfl

/-- C6: `health_check` always returns a map with exactly one boolean
entry per configured service, in the fixed order observe, runtime,
prompt, datasets, eval, deploy; every probe outcome other than a ready
future — timeout or any raised exception — is absorbed into `false`
and (the function being total into the map type) never propagates. -/
theorem C6_health_check_total_map :
    ∀ probe : String → DelosClient.ProbeResult,
      (DelosClient.health_check probe).map Prod.fst =
        DelosClient.serviceNames ∧
      DelosClient.serviceNames.Nodup ∧
      (∀ name, name ∈ DelosClient.serviceNames →
        (name, DelosClient.probeBool (probe name)) ∈
          DelosClient.health_check probe) ∧
      (∀ name b, (name, b) ∈ DelosClient.health_check probe →
        b = DelosClient.probeBool (probe name)) ∧
      (∀ name, name ∈ DelosClient.serviceNames →
        probe name ≠ .ready →
        (name, false) ∈ DelosClient.health_check probe) := by
  intro probe
  refine ⟨?_, by decide, ?_, ?_, ?_⟩
  · simp [DelosClient.health_check, Function.comp_def]
  · intro name h
    exact List.mem_map_of_mem _ h
  · intro name b hm
    simp only [DelosClient.health_check, List.mem_map] at hm
    obtain ⟨a, _, heq⟩ := hm
    obtain ⟨h1, h2⟩ := Prod.mk.injEq .. ▸ heq
    subst h1
    exact h2.symm
  · intro name h hnr
    have hb : DelosClient.probeBool (probe name) = false := by
      cases hp : probe name
      · exact absurd hp hnr
      · rfl
      · rfl
    have hmem := List.mem_map_of_mem
      (fun n => (n, DelosClient.probeBool (probe n))) h
    simp only [hb] at hmem
    exact hmem

/-- C6 (witness): with every probe raising, the prompt entry is
present and `false`. -/
theorem C6_health_check_total_map_witness :
    ("prompt", false) ∈
      DelosClient.health_check (fun _ => DelosClient.ProbeResult.raised) :=
  (C6_health_check_total_map (fun _ => DelosClient.ProbeResult.raised)).2.2.2.2
    "prompt" (by decide) (by decide)

/-- C7: `complete_stream` yields exactly the contents of the fragments
with non-empty content, in order — a sublist of all fragment contents
— and never surfaces an empty content. -/
theorem C7_stream_filters_empty :
    ∀ rs : List StreamResponse,
      RuntimeClient.complete_stream rs =
        (rs.filter (fun r => r.content != "")).map StreamResponse.content ∧
      (RuntimeClient.complete_stream rs).Sublist
        (rs.map StreamResponse.content) ∧
      (∀ c, c ∈ RuntimeClient.complete_stream rs → c ≠ "") := by
  have heq : ∀ l : List StreamResponse,
      RuntimeClient.complete_stream l =
        (l.filter (fun r => r.content != "")).map StreamResponse.content := by
    intro l
    induction l with
    | nil => rfl
    | cons r rest ih =>
      by_cases hc : r.content = ""
      · simp [RuntimeClient.complete_stream, hc, ih]
      · simp [RuntimeClient.complete_stream, hc, ih]
  intro rs
  refine ⟨heq rs, ?_, ?_⟩
  · rw [heq rs]
    exact List.Sublist.map _ (List.filter_sublist _)
  · intro c hcm
    rw [heq rs] at hcm
    simp only [List.mem_map, List.mem_filter, bne_iff_ne, ne_eq] at hcm
    obtain ⟨r, ⟨_, hne⟩, hco⟩ := hcm
    subst hco
    exact hne

/-- C7 (witness): a stream with an empty middle fragment yields the
two non-empty contents in order, and the first yielded content is
non-empty. -/
theorem C7_stream_filters_empty_witness :
    RuntimeClient.complete_stream [⟨"Hel"⟩, ⟨""⟩, ⟨"lo"⟩] = ["Hel", "lo"] ∧
    ("Hel" : String) ≠ "" := by
  refine ⟨?_, (C7_stream_filters_empty [⟨"Hel"⟩, ⟨""⟩, ⟨"lo"⟩]).2.2 "Hel"
    (by decide)⟩
  rw [(C7_stream_filters_empty [⟨"Hel"⟩, ⟨""⟩, ⟨"lo"⟩]).1]
  decide

/-- C8: close is idempotent for both layers — one close resets the
connection state to uninitialized, and a second consecutive close
leaves the state unchanged and performs no further close effect
(close is a total function, so no failure is raised). -/
theorem C8_close_idempotent :
    (∀ c : BaseClient,
      (c.close.1).channel_slot = none ∧
      (c.close.1).close = (c.close.1, false)) ∧
    (∀ s : DelosClientState,
      DelosClient.close (DelosClient.close s).1 =
        ((DelosClient.close s).1, 0)) := by
  constructor
  · intro c
    cases hc : c.channel_slot <;> simp [BaseClient.close, hc]
  · intro s
    rfl

/-- C9 (counterexample): with the unsynchronized check-then-create of
`BaseClient.channel`, the interleaving check₁, check₂, create₂,
create₁ creates two channel handles — thread 1 ends up using handle 1
while thread 2 uses the overwritten handle 0 — so the code does not
guarantee a single initialization. -/
theorem C9_counterexample :
    (chanRun {} [true, false, false, true]).shared.createdCount = 2 ∧
    (chanRun {} [true, false, false, true]).t1 = ChanPC.done 1 ∧
    (chanRun {} [true, false, false, true]).t2 = ChanPC.done 0 ∧
    (chanRun {} [true, false, false, true]).shared.channel = some 1 := by
  decide

/-- C9 (amended): there is no initialization guard; racing
initializations can each create a handle (see the counterexample).
What does hold: a check that sees an existing handle reuses it without
creating another, so calls that do not interleave — here thread 1 runs
to completion before thread 2 starts — create exactly one handle,
which both callers use. -/
theorem C9_sequential_single_handle :
    (∀ (s : ChanShared) (c : Nat), s.channel = some c →
      chanStep s .check = (s, .done c)) ∧
    chanRun {} [true, true, false, false] =
      { shared := { channel := some 0, nextHandle := 1, createdCount := 1 },
        t1 := .done 0, t2 := .done 0 } := by
  constructor
  · intro s c h
    simp [chanStep, h]
  · decide

/-- C9 (witness): a check step over an already-created handle reuses
it. -/
theorem C9_sequential_single_handle_witness :
    chanStep { channel := some 5, nextHandle := 6, createdCount := 1 }
      ChanPC.check =
      ({ channel := some 5, nextHandle := 6, createdCount := 1 },
        ChanPC.done 5) :=
  C9_sequential_single_handle.1 _ 5 rfl

/-- C10 (counterexample): a version literally numbered 0 *can* be
selected — when `current_version` is itself 0, requesting version 0
falls back to `current_version = 0` and returns the version numbered
0, contradicting the claim's "can never be selected". -/
theorem C10_counterexample :
    zeroPrompt.get_version (some 0) = some zeroVersion ∧
    zeroVersion.version = 0 :=
  ⟨rfl, rfl⟩

/-- C10 (amended): a requested version of 0 is treated as unspecified
(Python truthiness), so `get_version 0 = get_version None`, both
resolving to the first version numbered `current_version`, and
`render` at version 0 renders the current version; a version numbered
0 is unreachable this way only when `current_version` itself is
nonzero. -/
theorem C10_version_zero_unspecified :
    ∀ p : Prompt,
      p.get_version (some 0) = p.get_version none ∧
      p.get_version none =
        p.versions.find? (fun pv => pv.version = p.current_version) ∧
      (p.current_version ≠ 0 → ∀ v, p.get_version (some 0) = some v →
        v.version ≠ 0) ∧
      (∀ vs, p.render vs (some 0) = p.render vs none) := by
  intro p
  have h0 : p.get_version (some 0) = p.get_version none := by
    simp [Prompt.get_version]
  refine ⟨h0, rfl, ?_, ?_⟩
  · intro hc v hv
    rw [h0] at hv
    have hfind := List.find?_some hv
    have hve : v.version = p.current_version := by simpa using hfind
    rw [hve]
    exact hc
  · intro vs
    simp [Prompt.render, h0]

/-- C10 (witness): on the example prompt (current version 1), a
request for version 0 yields version 1, whose number is nonzero. -/
theorem C10_version_zero_unspecified_witness :
    ({ version := 1, template := "Hello \x7b\x7bname\x7d\x7d!" } :
      PromptVersion).version ≠ 0 :=
  (C10_version_zero_unspecified examplePrompt).2.2.1 (by decide) _ rfl

end Delos

